import Mathlib

/-!
Verification of the rating-aggregation and similarity recommendation engine of
the `the-shelf` repository (FastAPI + SQLAlchemy backend).

The development shallowly embeds the relevant Python code:

* `app/models/multi_dimensional_rating.py` — the `MultiDimensionalRating` and
  `BookFingerprint` rows, their `star_equivalent` and `fingerprint_vector`
  properties;
* `app/routers/multi_dimensional_ratings.py` — `update_book_fingerprint`
  (the fingerprint recompute) and the update path of `create_or_update_rating`;
* `app/services/embeddings.py` — `cosine_similarity`;
* `app/services/recommendations.py` — `get_similar_books_by_embedding`,
  `get_similar_books_by_fingerprint`, `get_personalized_recommendations`,
  `get_books_by_mood`.

Modelling conventions: SQL `NUMERIC`/Python floats are modelled exactly as
rationals (`ℚ`), except inside `cosine_similarity` whose square roots force the
value into `ℝ`; nullable columns are `Option`; timestamps are abstract naturals;
database tables are Lean lists of rows, and primary-key lookups are `List.find?`
(mirroring `scalar_one_or_none`, which returns the unique matching row).
Python's stable `list.sort(key=k, reverse=True)` is modelled by Mathlib's
stable `List.insertionSort` with the relation `k y ≤ k x`.
-/

namespace TheShelf

/-- One row of `multi_dimensional_ratings`: a user's 7-dimensional opinion of a
book.  Each dimension is a nullable small integer. -/
structure Rating where
  id : Nat
  user_id : Nat
  book_id : Nat
  pace : Option Int
  emotional_impact : Option Int
  complexity : Option Int
  character_development : Option Int
  plot_quality : Option Int
  prose_style : Option Int
  originality : Option Int
  created_at : Nat
  updated_at : Option Nat
deriving DecidableEq

/-- The seven dimension columns of a rating, in source declaration order. -/
def Rating.dimensions (r : Rating) : List (Option Int) :=
  [r.pace, r.emotional_impact, r.complexity, r.character_development,
   r.plot_quality, r.prose_style, r.originality]

/-- `MultiDimensionalRating.star_equivalent`: the mean of the non-null
dimensions, `None` when every dimension is null. -/
def Rating.star_equivalent (r : Rating) : Option ℚ :=
  let non_null := r.dimensions.filterMap (fun x => x)
  if non_null.isEmpty then none
  else some ((non_null.sum : ℚ) / non_null.length)

/-- Python `x or 3.0` on a nullable integer: a falsy value (null, or the
integer `0`, which the check constraints rule out anyway) becomes the neutral
fill `3.0`. -/
def orNeutralInt (x : Option Int) : ℚ :=
  match x with
  | none => 3
  | some v => if v = 0 then 3 else (v : ℚ)

/-- `MultiDimensionalRating.fingerprint_vector`: the rating as a 7-vector with
neutral fill for missing dimensions. -/
def Rating.fingerprint_vector (r : Rating) : List ℚ :=
  [orNeutralInt r.pace, orNeutralInt r.emotional_impact, orNeutralInt r.complexity,
   orNeutralInt r.character_development, orNeutralInt r.plot_quality,
   orNeutralInt r.prose_style, orNeutralInt r.originality]

/-- One row of `book_fingerprints`: the materialised aggregate of a book's
ratings.  `book_id` is the primary key. -/
structure Fingerprint where
  book_id : Nat
  avg_pace : Option ℚ
  avg_emotional_impact : Option ℚ
  avg_complexity : Option ℚ
  avg_character_development : Option ℚ
  avg_plot_quality : Option ℚ
  avg_prose_style : Option ℚ
  avg_originality : Option ℚ
  star_equivalent : Option ℚ
  total_ratings : Nat
  updated_at : Nat
deriving DecidableEq

/-- Python `x or 3.0` on a nullable float column. -/
def orNeutral (x : Option ℚ) : ℚ :=
  match x with
  | none => 3
  | some v => if v = 0 then 3 else v

/-- `BookFingerprint.fingerprint_vector`: the aggregate as a 7-vector with
neutral fill for missing averages. -/
def Fingerprint.fingerprint_vector (f : Fingerprint) : List ℚ :=
  [orNeutral f.avg_pace, orNeutral f.avg_emotional_impact, orNeutral f.avg_complexity,
   orNeutral f.avg_character_development, orNeutral f.avg_plot_quality,
   orNeutral f.avg_prose_style, orNeutral f.avg_originality]

/-- SQL `avg` over a nullable integer column: null values are skipped and the
result is null when there is no non-null value, otherwise the exact mean. -/
def sqlAvg (column : List (Option Int)) : Option ℚ :=
  let vs := column.filterMap (fun x => x)
  if vs.isEmpty then none else some ((vs.sum : ℚ) / vs.length)

/-- The aggregate statistics row computed by the `select` in
`update_book_fingerprint`: seven `avg` columns plus `count()`, and the
`star_equivalent` derived from them in Python. -/
structure FingerprintStats where
  avg_pace : Option ℚ
  avg_emotional_impact : Option ℚ
  avg_complexity : Option ℚ
  avg_character_development : Option ℚ
  avg_plot_quality : Option ℚ
  avg_prose_style : Option ℚ
  avg_originality : Option ℚ
  star_equivalent : Option ℚ
  total_ratings : Nat
deriving DecidableEq

/-- The aggregation query of `update_book_fingerprint` together with the
Python-side `star_equivalent` computation (mean of the non-null per-dimension
averages). -/
def computeFingerprintStats (ratings : List Rating) (book_id : Nat) : FingerprintStats :=
  let rs := ratings.filter (fun r => r.book_id == book_id)
  let avg_pace := sqlAvg (rs.map (·.pace))
  let avg_emotional_impact := sqlAvg (rs.map (·.emotional_impact))
  let avg_complexity := sqlAvg (rs.map (·.complexity))
  let avg_character_development := sqlAvg (rs.map (·.character_development))
  let avg_plot_quality := sqlAvg (rs.map (·.plot_quality))
  let avg_prose_style := sqlAvg (rs.map (·.prose_style))
  let avg_originality := sqlAvg (rs.map (·.originality))
  let dimensions := [avg_pace, avg_emotional_impact, avg_complexity,
    avg_character_development, avg_plot_quality, avg_prose_style, avg_originality]
  let non_null := dimensions.filterMap (fun x => x)
  { avg_pace := avg_pace
    avg_emotional_impact := avg_emotional_impact
    avg_complexity := avg_complexity
    avg_character_development := avg_character_development
    avg_plot_quality := avg_plot_quality
    avg_prose_style := avg_prose_style
    avg_originality := avg_originality
    star_equivalent := if non_null.isEmpty then none
      else some (non_null.sum / (non_null.length : ℚ))
    total_ratings := rs.length }

/-- The nine value columns of a fingerprint row that the recompute writes,
viewed as a statistics row (used to model SQLAlchemy change detection). -/
def Fingerprint.stats (f : Fingerprint) : FingerprintStats :=
  { avg_pace := f.avg_pace
    avg_emotional_impact := f.avg_emotional_impact
    avg_complexity := f.avg_complexity
    avg_character_development := f.avg_character_development
    avg_plot_quality := f.avg_plot_quality
    avg_prose_style := f.avg_prose_style
    avg_originality := f.avg_originality
    star_equivalent := f.star_equivalent
    total_ratings := f.total_ratings }

/-- `update_book_fingerprint` from `app/routers/multi_dimensional_ratings.py`:
recompute the aggregate statistics for `book_id` over the ratings table and
upsert the single fingerprint row.  `existing` is the current row (the
`scalar_one_or_none` lookup) and `now` the transaction timestamp.  The
`updated_at` column has SQLAlchemy `onupdate=func.now()` semantics: the UPDATE
statement, and with it the fresh timestamp, is only emitted when at least one
column value actually changed; a freshly INSERTed row gets the
`server_default` timestamp `now`. -/
def update_book_fingerprint (ratings : List Rating) (book_id : Nat)
    (existing : Option Fingerprint) (now : Nat) : Fingerprint :=
  let s := computeFingerprintStats ratings book_id
  match existing with
  | some f =>
      { f with
        avg_pace := s.avg_pace
        avg_emotional_impact := s.avg_emotional_impact
        avg_complexity := s.avg_complexity
        avg_character_development := s.avg_character_development
        avg_plot_quality := s.avg_plot_quality
        avg_prose_style := s.avg_prose_style
        avg_originality := s.avg_originality
        star_equivalent := s.star_equivalent
        total_ratings := s.total_ratings
        updated_at := if s = f.stats then f.updated_at else now }
  | none =>
      { book_id := book_id
        avg_pace := s.avg_pace
        avg_emotional_impact := s.avg_emotional_impact
        avg_complexity := s.avg_complexity
        avg_character_development := s.avg_character_development
        avg_plot_quality := s.avg_plot_quality
        avg_prose_style := s.avg_prose_style
        avg_originality := s.avg_originality
        star_equivalent := s.star_equivalent
        total_ratings := s.total_ratings
        updated_at := now }

/-- Mean of a list of rationals, null on the empty list (the spec's
"arithmetic mean of the non-null values"). -/
def listMean (l : List ℚ) : Option ℚ :=
  if l.isEmpty then none else some (l.sum / (l.length : ℚ))

/-- A dimension field name of the rating schema. -/
inductive DimField
  | pace
  | emotional_impact
  | complexity
  | character_development
  | plot_quality
  | prose_style
  | originality
deriving DecidableEq

/-- `MultiDimensionalRatingCreate`: the request body of the rating endpoint.
Every dimension is doubly optional: the outer `Option` is pydantic's "was this
field explicitly present in the request" (what
`model_dump(exclude_unset=True)` tracks), the inner one the nullable value
itself. -/
structure RatingCreate where
  book_id : Nat
  pace : Option (Option Int)
  emotional_impact : Option (Option Int)
  complexity : Option (Option Int)
  character_development : Option (Option Int)
  plot_quality : Option (Option Int)
  prose_style : Option (Option Int)
  originality : Option (Option Int)
deriving DecidableEq

/-- The items of `rating_data.model_dump(exclude_unset=True,
exclude={"book_id"})`: the explicitly set dimension fields, in declaration
order. -/
def RatingCreate.update_data (rc : RatingCreate) : List (DimField × Option Int) :=
  ([(DimField.pace, rc.pace), (DimField.emotional_impact, rc.emotional_impact),
    (DimField.complexity, rc.complexity),
    (DimField.character_development, rc.character_development),
    (DimField.plot_quality, rc.plot_quality), (DimField.prose_style, rc.prose_style),
    (DimField.originality, rc.originality)]).filterMap
    (fun kv => kv.2.map (fun v => (kv.1, v)))

/-- `setattr(existing_rating, key, value)` for a dimension field of a rating
row. -/
def setDim (r : Rating) (k : DimField) (v : Option Int) : Rating :=
  match k with
  | .pace => { r with pace := v }
  | .emotional_impact => { r with emotional_impact := v }
  | .complexity => { r with complexity := v }
  | .character_development => { r with character_development := v }
  | .plot_quality => { r with plot_quality := v }
  | .prose_style => { r with prose_style := v }
  | .originality => { r with originality := v }

/-- The update path of `create_or_update_rating` (a rating for this user and
book already exists): every explicitly set dimension field is written onto the
existing row in a `setattr` loop, then `updated_at` is set to `func.now()`. -/
def apply_rating_update (existing : Rating) (rc : RatingCreate) (now : Nat) : Rating :=
  let updated := rc.update_data.foldl (fun r kv => setDim r kv.1 kv.2) existing
  { updated with updated_at := some now }

/-- `sum(a * a for a in v)`: the radicand of a vector magnitude. -/
def sumSq (v : List ℚ) : ℚ := (v.map (fun a => a * a)).sum

/-- `sum(a * b for a, b in zip(vec1, vec2))`. -/
def dotProduct (a b : List ℚ) : ℚ := (List.zipWith (fun x y => x * y) a b).sum

/-- `cosine_similarity` from `app/services/embeddings.py`, an exact-real model
of the float computation (`** 0.5` is `Real.sqrt`).  Raises `ValueError` on a
dimension mismatch; returns `0.0` when either magnitude is exactly zero and
divides only otherwise. -/
noncomputable def cosine_similarity (vec1 vec2 : List ℚ) : Except String ℝ :=
  if vec1.length ≠ vec2.length then .error "Vectors must have same dimension"
  else
    let dot_product : ℝ := ((dotProduct vec1 vec2 : ℚ) : ℝ)
    let mag1 : ℝ := Real.sqrt ((sumSq vec1 : ℚ) : ℝ)
    let mag2 : ℝ := Real.sqrt ((sumSq vec2 : ℚ) : ℝ)
    if mag1 = 0 ∨ mag2 = 0 then .ok 0
    else .ok (dot_product / (mag1 * mag2))

/-- A concrete stored rating row used to witness the update-path theorem. -/
def exRating : Rating :=
  { id := 11
    user_id := 7
    book_id := 2
    pace := some 5
    emotional_impact := some 1
    complexity := none
    character_development := some 3
    plot_quality := none
    prose_style := some 2
    originality := some 4
    created_at := 100
    updated_at := none }

/-- A concrete update request: sets `emotional_impact` to 4, explicitly nulls
`originality`, and leaves every other dimension unset. -/
def exCreate : RatingCreate :=
  { book_id := 2
    pace := none
    emotional_impact := some (some 4)
    complexity := none
    character_development := none
    plot_quality := none
    prose_style := none
    originality := some none }

/-- A row of `books`.  Only the columns the recommendation engine reads are
modelled: the primary key and the text-embedding vector.  The
`description_embedding` column is modelled from the spec: the service layer
reads `Book.description_embedding`, but the `Book` model in
`app/models/book.py` does not declare that column (the pgvector setup is still
a TODO in the service); the spec describes it as an externally supplied float
vector that may be absent. -/
structure Book where
  id : Nat
  description_embedding : Option (List ℚ)
deriving DecidableEq

/-- A row of `user_books`: one book in one user's library, with its reading
status. -/
structure UserBook where
  user_id : Nat
  book_id : Nat
  status : String
deriving DecidableEq

/-- The database tables read by the recommendation service. -/
structure DB where
  books : List Book
  book_fingerprints : List Fingerprint
  multi_dimensional_ratings : List Rating
  user_books : List UserBook

/-- Python truthiness of an optional vector: `None` and the empty list are
falsy. -/
def truthyVec : Option (List ℚ) → Bool
  | none => false
  | some v => !v.isEmpty

/-- Python truthiness of the optional `exclude_book_ids` argument: `None` and
the empty list skip the exclusion filter. -/
def truthyIds : Option (List Nat) → Bool
  | none => false
  | some l => !l.isEmpty

/-- Python's stable `list.sort(key=key, reverse=True)`: larger keys first,
ties kept in input order (insertion sort is stable, as is Timsort). -/
def sortByKeyDesc {α : Type} {β : Type} [LinearOrder β] (key : α → β) (l : List α) :
    List α :=
  l.insertionSort (fun x y => key y ≤ key x)

/-- The SQL inner join of `books` with `book_fingerprints` on
`Book.id == BookFingerprint.book_id`, rows in table order. -/
def joinBF (db : DB) : List (Book × Fingerprint) :=
  db.books.flatMap (fun b =>
    (db.book_fingerprints.filter (fun f => f.book_id == b.id)).map (fun f => (b, f)))

/-- The `select(Book.description_embedding).where(Book.id == book_id)` lookup
followed by `scalar_one_or_none`: null when the book is missing or has no
embedding. -/
def targetEmbedding (db : DB) (book_id : Nat) : Option (List ℚ) :=
  (db.books.find? (fun b => b.id == book_id)).bind (·.description_embedding)

/-- The candidate query of `get_similar_books_by_embedding`: all books other
than the anchor, minus the (truthy) exclusion list, capped at 100 rows, then
restricted in the scoring loop to books whose embedding is truthy. -/
def embeddingCandidates (db : DB) (book_id : Nat)
    (exclude_book_ids : Option (List Nat)) : List Book :=
  let q1 := db.books.filter (fun b => b.id != book_id)
  let q2 := if truthyIds exclude_book_ids then
      q1.filter (fun b => !(exclude_book_ids.getD []).contains b.id)
    else q1
  (q2.take 100).filter (fun b => truthyVec b.description_embedding)

/-- `get_similar_books_by_embedding` from `app/services/recommendations.py`:
fails soft (empty list) when the anchor has no truthy embedding, otherwise
scores the candidates with `cosine_similarity` (whose `ValueError` would
propagate), sorts by similarity descending (stable) and truncates to
`limit`. -/
noncomputable def get_similar_books_by_embedding (db : DB) (book_id : Nat)
    (limit : Nat) (exclude_book_ids : Option (List Nat)) : Except String (List Book) :=
  let target := targetEmbedding db book_id
  if !truthyVec target then .ok []
  else do
    let t := target.getD []
    let scored ← (embeddingCandidates db book_id exclude_book_ids).mapM
      (fun b => (cosine_similarity t (b.description_embedding.getD [])).map
        (fun s => (b, s)))
    return ((sortByKeyDesc Prod.snd scored).take limit).map Prod.fst

/-- The candidate query of `get_similar_books_by_fingerprint`: the join rows
whose fingerprint is not the anchor's and has `total_ratings >= 3`, minus the
(truthy) exclusion list. -/
def fingerprintCandidates (db : DB) (book_id : Nat)
    (exclude_book_ids : Option (List Nat)) : List (Book × Fingerprint) :=
  let rows := (joinBF db).filter (fun bf =>
    bf.2.book_id != book_id && decide (3 ≤ bf.2.total_ratings))
  if truthyIds exclude_book_ids then
    rows.filter (fun bf => !(exclude_book_ids.getD []).contains bf.1.id)
  else rows

/-- `get_similar_books_by_fingerprint` from `app/services/recommendations.py`:
fails soft (empty list) when the anchor has no fingerprint row or fewer than 3
ratings, otherwise scores the reliable candidates against the anchor's
fingerprint vector, sorts by similarity descending (stable) and truncates to
`limit`. -/
noncomputable def get_similar_books_by_fingerprint (db : DB) (book_id : Nat)
    (limit : Nat) (exclude_book_ids : Option (List Nat)) : Except String (List Book) :=
  match db.book_fingerprints.find? (fun f => f.book_id == book_id) with
  | none => .ok []
  | some target_fp =>
    if target_fp.total_ratings < 3 then .ok []
    else do
      let target_vector := target_fp.fingerprint_vector
      let scored ← (fingerprintCandidates db book_id exclude_book_ids).mapM
        (fun bf => (cosine_similarity target_vector bf.2.fingerprint_vector).map
          (fun s => (bf.1, s)))
      return ((sortByKeyDesc Prod.snd scored).take limit).map Prod.fst

/-- The value `cosine_similarity` returns on success (total helper used only
in theorem statements; it agrees with `cosine_similarity` whenever the lengths
match). -/
noncomputable def cosVal (a b : List ℚ) : ℝ :=
  if Real.sqrt ((sumSq a : ℚ) : ℝ) = 0 ∨ Real.sqrt ((sumSq b : ℚ) : ℝ) = 0 then 0
  else ((dotProduct a b : ℚ) : ℝ) /
    (Real.sqrt ((sumSq a : ℚ) : ℝ) * Real.sqrt ((sumSq b : ℚ) : ℝ))

/-- The fingerprint vector the similarity query associates to a book: the
vector of its (unique) fingerprint row, a neutral vector when it has none
(that fallback is never reached for books returned by the query). -/
def fingerprintVectorOf (db : DB) (b : Book) : List ℚ :=
  match db.book_fingerprints.find? (fun f => f.book_id == b.id) with
  | some f => f.fingerprint_vector
  | none => [3, 3, 3, 3, 3, 3, 3]

/-- The fingerprint vector of the anchor of a fingerprint-similarity query
(the neutral fallback is never reached when the anchor clears the floor). -/
def anchorFingerprintVector (db : DB) (book_id : Nat) : List ℚ :=
  match db.book_fingerprints.find? (fun f => f.book_id == book_id) with
  | some f => f.fingerprint_vector
  | none => [3, 3, 3, 3, 3, 3, 3]

/-- The ordering the original claim asserts for similarity results: strictly
descending similarity, with ties broken by ascending book id. -/
def rankedWithTiesByAscendingId (sim : Book → ℝ) (bs : List Book) : Prop :=
  bs.Pairwise (fun x y => sim y < sim x ∨ (sim y = sim x ∧ x.id < y.id))

/-- ASCII lower-casing of one character (Python `str.lower` on the mood
labels). -/
def lowerChar (c : Char) : Char :=
  if 65 ≤ c.toNat ∧ c.toNat ≤ 90 then Char.ofNat (c.toNat + 32) else c

/-- Python `mood.lower()`. -/
def pyLower (s : String) : String := String.mk (s.data.map lowerChar)

/-- One dimension-range condition of a mood filter: a `_min` entry
(`avg_<dim> >= v`) or a `_max` entry (`avg_<dim> <= v`). -/
inductive MoodCond
  | minCond (d : DimField) (v : ℚ)
  | maxCond (d : DimField) (v : ℚ)
deriving DecidableEq

/-- `getattr(BookFingerprint, "avg_" + field)`. -/
def Fingerprint.avgOf (f : Fingerprint) (d : DimField) : Option ℚ :=
  match d with
  | .pace => f.avg_pace
  | .emotional_impact => f.avg_emotional_impact
  | .complexity => f.avg_complexity
  | .character_development => f.avg_character_development
  | .plot_quality => f.avg_plot_quality
  | .prose_style => f.avg_prose_style
  | .originality => f.avg_originality

/-- The `mood_filters` dictionary of `get_books_by_mood`, entries in
declaration order. -/
def mood_filters (mood : String) : Option (List MoodCond) :=
  if mood = "comfort" then
    some [.minCond .emotional_impact 4, .maxCond .complexity 3]
  else if mood = "challenge" then
    some [.minCond .complexity 4, .minCond .originality 4]
  else if mood = "escape" then
    some [.minCond .pace 4, .minCond .plot_quality 4]
  else if mood = "contemplative" then
    some [.maxCond .pace (5 / 2), .minCond .prose_style 4]
  else none

/-- The SQL comparison a mood condition compiles to; a NULL column fails every
range predicate. -/
def MoodCond.holds (c : MoodCond) (f : Fingerprint) : Bool :=
  match c with
  | .minCond d v =>
    match f.avgOf d with
    | none => false
    | some a => decide (v ≤ a)
  | .maxCond d v =>
    match f.avgOf d with
    | none => false
    | some a => decide (a ≤ v)

/-- `get_books_by_mood` from `app/services/recommendations.py`: joins books
with fingerprints, requires `total_ratings >= 5`, chains one `where` clause
per mood condition and truncates to `limit`.  An unknown mood label only logs
a warning and returns the empty list. -/
def get_books_by_mood (db : DB) (mood : String) (limit : Nat) : List Book :=
  match mood_filters (pyLower mood) with
  | none => []
  | some conds =>
    let rows := (joinBF db).filter (fun bf => decide (5 ≤ bf.2.total_ratings))
    let rows := conds.foldl (fun acc c => acc.filter (fun bf => c.holds bf.2)) rows
    (rows.map Prod.fst).take limit

/-- Modelled from the spec: the mood query as section 4.5 words it, with the
reliability floor `RELIABILITY_FLOOR` (default 3) shared with fingerprint
similarity, in place of the literal `5` the code uses. -/
def byMoodSpecFloor3 (db : DB) (mood : String) (limit : Nat) : List Book :=
  match mood_filters (pyLower mood) with
  | none => []
  | some conds =>
    let rows := (joinBF db).filter (fun bf => decide (3 ≤ bf.2.total_ratings))
    let rows := conds.foldl (fun acc c => acc.filter (fun bf => c.holds bf.2)) rows
    (rows.map Prod.fst).take limit

/-- Modelled from the spec: the mood query as sections 4.5 and 7 word its
error handling — an unknown mood label fails with `UnknownMood` instead of
returning a result list. -/
def byMoodChecked (db : DB) (mood : String) (limit : Nat) : Except String (List Book) :=
  match mood_filters (pyLower mood) with
  | none => .error "UnknownMood"
  | some _ => .ok (get_books_by_mood db mood limit)

/-- The reason attached to a recommendation entry.  The popularity reason
carries the raw `star_equivalent` interpolated into the message; rendering it
to one decimal is presentation only and is not modelled. -/
inductive RecReason
  | similar_feel
  | highly_rated (star : ℚ)
deriving DecidableEq

/-- One entry of the recommendation result: the book, the reason and the
strategy score. -/
structure RecEntry where
  book : Book
  reason : RecReason
  score : ℚ
deriving DecidableEq

/-- The Python test `r.star_equivalent and r.star_equivalent >= 4.0`: null and
the (unreachable) zero value are falsy. -/
def starAtLeast4 (r : Rating) : Bool :=
  match r.star_equivalent with
  | none => false
  | some q => !(q == 0) && decide ((4 : ℚ) ≤ q)

/-- The SQL predicate `BookFingerprint.star_equivalent >= 4.0` (NULL fails). -/
def starColGe4 (f : Fingerprint) : Bool :=
  match f.star_equivalent with
  | none => false
  | some q => decide ((4 : ℚ) ≤ q)

/-- The `highly_rated_book_ids` list comprehension of
`get_personalized_recommendations`: book ids of the user's ratings whose
`star_equivalent` passes the 4.0 test, in query order (the query has no
`order_by`). -/
def highlyRatedBookIds (user_ratings : List Rating) : List Nat :=
  (user_ratings.filter starAtLeast4).map (·.book_id)

/-- Modelled from the spec: the favourites selection as section 4.4 words it —
the user's ratings with `star_equivalent >= 4.0`, most recent first (sorted by
`created_at` descending), capped at 3.  The code applies no recency ordering;
this definition exists to compare the spec wording with the code. -/
def specFavoritesMostRecent (user_ratings : List Rating) : List Nat :=
  (((sortByKeyDesc (fun r : Rating => r.created_at) user_ratings).filter
    (fun r => (r.star_equivalent.map (fun q => decide ((4 : ℚ) ≤ q))).getD false)).map
    (·.book_id)).take 3

/-- The initial exclusion set of `get_personalized_recommendations`: with
`exclude_read` every book in the user's library regardless of status,
otherwise only the finished and did-not-finish ones.  The Python `set` is
modelled as a list used only through membership. -/
def excludedByFlag (db : DB) (user_id : Nat) (exclude_read : Bool) : List Nat :=
  let user_books := db.user_books.filter (fun ub => ub.user_id == user_id)
  if exclude_read then user_books.map (·.book_id)
  else (user_books.filter (fun ub =>
    ub.status == "finished" || ub.status == "dnf")).map (·.book_id)

/-- The body of the strategy-1 loop of `get_personalized_recommendations`:
fetch up to 5 fingerprint-similar books for one favourite, then append each
one that is not yet excluded and fold it into the exclusion set. -/
noncomputable def strat1Step (db : DB) (acc : List RecEntry × List Nat) (anchor : Nat) :
    Except String (List RecEntry × List Nat) := do
  let similar ← get_similar_books_by_fingerprint db anchor 5 (some acc.2)
  return similar.foldl (fun acc2 b =>
    if acc2.2.contains b.id then acc2
    else (acc2.1 ++ [⟨b, .similar_feel, 9 / 10⟩], b.id :: acc2.2)) acc

/-- The tail of `get_personalized_recommendations` after the strategy-1 loop:
if still short of `limit`, fill the remaining slots with the popularity
fallback (`total_ratings >= 10`, `star_equivalent >= 4.0`, not excluded,
`order_by total_ratings desc` modelled as the stable descending sort — SQL
leaves tie order open and no proved claim depends on it) at score 0.7, then
stably sort by score descending and truncate to `limit`. -/
def finishRecommendations (db : DB) (limit : Nat)
    (s1 : List RecEntry × List Nat) : List RecEntry :=
  let recommendations := s1.1
  let recommendations :=
    if recommendations.length < limit then
      let popular := (sortByKeyDesc (fun bf : Book × Fingerprint => bf.2.total_ratings)
        ((joinBF db).filter (fun bf => decide (10 ≤ bf.2.total_ratings) &&
          starColGe4 bf.2 && !s1.2.contains bf.1.id))).take
        (limit - recommendations.length)
      recommendations ++ popular.map (fun bf =>
        ⟨bf.1, .highly_rated (bf.2.star_equivalent.getD 0), 7 / 10⟩)
    else recommendations
  (sortByKeyDesc RecEntry.score recommendations).take limit

/-- `get_personalized_recommendations` from
`app/services/recommendations.py`: strategy 1 adds fingerprint-similar books
for up to 3 favourites at score 0.9; the popularity fallback and the final
stable sort and truncation are `finishRecommendations`. -/
noncomputable def get_personalized_recommendations (db : DB) (user_id : Nat)
    (limit : Nat) (exclude_read : Bool) : Except String (List RecEntry) := do
  let user_ratings := db.multi_dimensional_ratings.filter (fun r => r.user_id == user_id)
  let highly_rated_book_ids := highlyRatedBookIds user_ratings
  let exclude_ids := excludedByFlag db user_id exclude_read
  let s1 ← (highly_rated_book_ids.take 3).foldlM (strat1Step db)
    (([] : List RecEntry), exclude_ids)
  return finishRecommendations db limit s1

/-- Invariant of the strategy-1 loop, relative to the initial exclusion set
`ex0`: the accumulated entries have pairwise distinct book ids, every
accumulated book id is in the running exclusion set, none of them is in the
initial exclusion set, and the running set still contains `ex0`. -/
def Strat1Inv (ex0 : List Nat) (s : List RecEntry × List Nat) : Prop :=
  (s.1.map (fun e => e.book.id)).Nodup ∧
  (∀ e ∈ s.1, e.book.id ∈ s.2) ∧
  (∀ e ∈ s.1, e.book.id ∉ ex0) ∧
  (∀ x ∈ ex0, x ∈ s.2)

/-- The list `get_similar_books_by_fingerprint` returns, with the similarity
scores phrased through the total `cosVal` (the agreement is proved below as
`gsbf_eq`; the fingerprint path can never hit the dimension-mismatch error
because every fingerprint vector has length 7). -/
noncomputable def gsbfResult (db : DB) (book_id : Nat) (limit : Nat)
    (excl : Option (List Nat)) : List Book :=
  match db.book_fingerprints.find? (fun f => f.book_id == book_id) with
  | none => []
  | some fp =>
    if fp.total_ratings < 3 then []
    else ((sortByKeyDesc Prod.snd ((fingerprintCandidates db book_id excl).map
      (fun bf => (bf.1, cosVal fp.fingerprint_vector bf.2.fingerprint_vector)))).take
      limit).map Prod.fst

/-- A reliable all-average fingerprint row used in concrete examples. -/
def cexFp (bid : Nat) (v : ℚ) : Fingerprint :=
  { book_id := bid
    avg_pace := some v
    avg_emotional_impact := some v
    avg_complexity := some v
    avg_character_development := some v
    avg_plot_quality := some v
    avg_prose_style := some v
    avg_originality := some v
    star_equivalent := some v
    total_ratings := 3
    updated_at := 0 }

/-- Anchor book of the tie-break counterexample. -/
def cexBook1 : Book := { id := 1, description_embedding := none }

/-- First-listed candidate of the tie-break counterexample (larger id). -/
def cexBook5 : Book := { id := 5, description_embedding := none }

/-- Second-listed candidate of the tie-break counterexample (smaller id). -/
def cexBook2 : Book := { id := 2, description_embedding := none }

/-- Database of the tie-break counterexample: both candidates have fingerprint
vectors parallel to the anchor's, hence equal cosine similarity 1, and the
candidate with the larger id comes first in table order. -/
def cexDb : DB :=
  { books := [cexBook1, cexBook5, cexBook2]
    book_fingerprints := [cexFp 1 3, cexFp 5 2, cexFp 2 4]
    multi_dimensional_ratings := []
    user_books := [] }

/-- A single-book database whose only book carries an embedding: the
embedding-similarity query for it has a truthy target but no candidates. -/
def embDb : DB :=
  { books := [{ id := 1, description_embedding := some [1] }]
    book_fingerprints := []
    multi_dimensional_ratings := []
    user_books := [] }

/-- Fingerprint row of the mood counterexample: passes the comfort predicates
with 4 ratings (at or above the spec floor 3, below the code floor 5). -/
def moodFp4 : Fingerprint :=
  { book_id := 1
    avg_pace := none
    avg_emotional_impact := some 5
    avg_complexity := some 2
    avg_character_development := none
    avg_plot_quality := none
    avg_prose_style := none
    avg_originality := none
    star_equivalent := some 3
    total_ratings := 4
    updated_at := 0 }

/-- The same fingerprint with 5 ratings (passes the code floor). -/
def moodFp5 : Fingerprint :=
  { moodFp4 with total_ratings := 5 }

/-- Book of the mood examples. -/
def moodBook : Book := { id := 1, description_embedding := none }

/-- Database of the mood-floor counterexample. -/
def moodDb4 : DB :=
  { books := [moodBook]
    book_fingerprints := [moodFp4]
    multi_dimensional_ratings := []
    user_books := [] }

/-- Database of the mood witnesses. -/
def moodDb5 : DB :=
  { books := [moodBook]
    book_fingerprints := [moodFp5]
    multi_dimensional_ratings := []
    user_books := [] }

/-- Two qualifying ratings (star 5 and star 4) listed oldest first, as an
id-ordered query would return them. -/
def exFavRatings : List Rating :=
  [{ id := 1
     user_id := 1
     book_id := 10
     pace := some 5
     emotional_impact := none
     complexity := none
     character_development := none
     plot_quality := none
     prose_style := none
     originality := none
     created_at := 1
     updated_at := none },
   { id := 2
     user_id := 1
     book_id := 20
     pace := some 4
     emotional_impact := none
     complexity := none
     character_development := none
     plot_quality := none
     prose_style := none
     originality := none
     created_at := 2
     updated_at := none }]

theorem cast_list_sum_rat (l : List Int) :
    ((l.sum : Int) : ℚ) = (l.map (fun v : Int => (v : ℚ))).sum := by
  induction l with
  | nil => simp
  | cons a tl ih => simp [ih]

theorem sqlAvg_eq_listMean (column : List (Option Int)) :
    sqlAvg column = listMean ((column.filterMap (fun x => x)).map (fun v : Int => (v : ℚ))) := by
  unfold sqlAvg listMean
  rcases h : column.filterMap (fun x => x) with _ | ⟨v, vs⟩
  · simp
  · simp [cast_list_sum_rat]

theorem update_book_fingerprint_stats (ratings : List Rating) (book_id now : Nat)
    (existing : Option Fingerprint) :
    (update_book_fingerprint ratings book_id existing now).stats =
      computeFingerprintStats ratings book_id := by
  cases existing <;> rfl

/-- C1: the fingerprint recompute stores, for each of the 7 dimensions, the
arithmetic mean of the non-null values of that dimension across the book's
ratings (null when no rating sets that dimension), stores `star_equivalent` as
the mean of the per-dimension means that are non-null (null when there are no
non-null means, in particular when there are no ratings), and stores
`total_ratings` equal to the number of ratings for the book. -/
theorem fingerprint_recompute_correct (ratings : List Rating) (book_id now : Nat)
    (existing : Option Fingerprint) :
    let fp := update_book_fingerprint ratings book_id existing now
    let rs := ratings.filter (fun r => r.book_id == book_id)
    fp.avg_pace = listMean ((rs.filterMap (·.pace)).map (fun v : Int => (v : ℚ))) ∧
    fp.avg_emotional_impact =
      listMean ((rs.filterMap (·.emotional_impact)).map (fun v : Int => (v : ℚ))) ∧
    fp.avg_complexity =
      listMean ((rs.filterMap (·.complexity)).map (fun v : Int => (v : ℚ))) ∧
    fp.avg_character_development =
      listMean ((rs.filterMap (·.character_development)).map (fun v : Int => (v : ℚ))) ∧
    fp.avg_plot_quality =
      listMean ((rs.filterMap (·.plot_quality)).map (fun v : Int => (v : ℚ))) ∧
    fp.avg_prose_style =
      listMean ((rs.filterMap (·.prose_style)).map (fun v : Int => (v : ℚ))) ∧
    fp.avg_originality =
      listMean ((rs.filterMap (·.originality)).map (fun v : Int => (v : ℚ))) ∧
    fp.star_equivalent =
      listMean ([fp.avg_pace, fp.avg_emotional_impact, fp.avg_complexity,
        fp.avg_character_development, fp.avg_plot_quality, fp.avg_prose_style,
        fp.avg_originality].filterMap (fun x => x)) ∧
    fp.total_ratings = rs.length := by
  intro fp rs
  have key : ∀ g : Rating → Option Int,
      sqlAvg (rs.map g) = listMean ((rs.filterMap g).map (fun v : Int => (v : ℚ))) := by
    intro g
    rw [sqlAvg_eq_listMean]
    simp [List.filterMap_map, Function.comp_def]
  refine ⟨?_, ?_, ?_, ?_, ?_, ?_, ?_, ?_, ?_⟩
  · exact (show fp.avg_pace = sqlAvg (rs.map (·.pace)) by
      cases existing <;> rfl).trans (key _)
  · exact (show fp.avg_emotional_impact = sqlAvg (rs.map (·.emotional_impact)) by
      cases existing <;> rfl).trans (key _)
  · exact (show fp.avg_complexity = sqlAvg (rs.map (·.complexity)) by
      cases existing <;> rfl).trans (key _)
  · exact (show fp.avg_character_development = sqlAvg (rs.map (·.character_development)) by
      cases existing <;> rfl).trans (key _)
  · exact (show fp.avg_plot_quality = sqlAvg (rs.map (·.plot_quality)) by
      cases existing <;> rfl).trans (key _)
  · exact (show fp.avg_prose_style = sqlAvg (rs.map (·.prose_style)) by
      cases existing <;> rfl).trans (key _)
  · exact (show fp.avg_originality = sqlAvg (rs.map (·.originality)) by
      cases existing <;> rfl).trans (key _)
  · show fp.star_equivalent = listMean ([fp.avg_pace, fp.avg_emotional_impact,
      fp.avg_complexity, fp.avg_character_development, fp.avg_plot_quality,
      fp.avg_prose_style, fp.avg_originality].filterMap (fun x => x))
    cases existing <;> rfl
  · show fp.total_ratings = rs.length
    cases existing <;> rfl

/-- C7: running the fingerprint recompute twice in a row with no intervening
rating change produces a row identical in every stored field, `updated_at`
included, to the first run's output. -/
theorem fingerprint_recompute_idempotent (ratings : List Rating) (book_id t1 t2 : Nat)
    (existing : Option Fingerprint) :
    update_book_fingerprint ratings book_id
        (some (update_book_fingerprint ratings book_id existing t1)) t2 =
      update_book_fingerprint ratings book_id existing t1 := by
  have noop : ∀ f : Fingerprint,
      f.stats = computeFingerprintStats ratings book_id →
      update_book_fingerprint ratings book_id (some f) t2 = f := by
    intro f hf
    obtain ⟨bid, p, e, c, cd, pq, ps, og, se, tr, ua⟩ := f
    simp only [update_book_fingerprint]
    rw [← hf]
    simp [Fingerprint.stats]
  exact noop _ (update_book_fingerprint_stats ratings book_id t1 existing)

/-- C10: when a rating for a (user, book) pair that already has a rating is
re-submitted, only the dimension fields explicitly present in the request are
overwritten; dimensions omitted from the request keep their stored values, and
the row's `id`, `user_id`, `book_id` and `created_at` are unchanged. -/
theorem rating_update_frame (existing : Rating) (rc : RatingCreate) (now : Nat) :
    let r := apply_rating_update existing rc now
    (rc.pace = none → r.pace = existing.pace) ∧
    (∀ v, rc.pace = some v → r.pace = v) ∧
    (rc.emotional_impact = none → r.emotional_impact = existing.emotional_impact) ∧
    (∀ v, rc.emotional_impact = some v → r.emotional_impact = v) ∧
    (rc.complexity = none → r.complexity = existing.complexity) ∧
    (∀ v, rc.complexity = some v → r.complexity = v) ∧
    (rc.character_development = none →
      r.character_development = existing.character_development) ∧
    (∀ v, rc.character_development = some v → r.character_development = v) ∧
    (rc.plot_quality = none → r.plot_quality = existing.plot_quality) ∧
    (∀ v, rc.plot_quality = some v → r.plot_quality = v) ∧
    (rc.prose_style = none → r.prose_style = existing.prose_style) ∧
    (∀ v, rc.prose_style = some v → r.prose_style = v) ∧
    (rc.originality = none → r.originality = existing.originality) ∧
    (∀ v, rc.originality = some v → r.originality = v) ∧
    r.id = existing.id ∧ r.user_id = existing.user_id ∧
    r.book_id = existing.book_id ∧ r.created_at = existing.created_at := by
  have heq : apply_rating_update existing rc now =
      { existing with
        pace := rc.pace.getD existing.pace
        emotional_impact := rc.emotional_impact.getD existing.emotional_impact
        complexity := rc.complexity.getD existing.complexity
        character_development := rc.character_development.getD existing.character_development
        plot_quality := rc.plot_quality.getD existing.plot_quality
        prose_style := rc.prose_style.getD existing.prose_style
        originality := rc.originality.getD existing.originality
        updated_at := some now } := by
    obtain ⟨bid, p, e, c, cd, pq, ps, og⟩ := rc
    cases p <;> cases e <;> cases c <;> cases cd <;> cases pq <;> cases ps <;> cases og <;>
      rfl
  intro r
  refine ⟨fun h => ?_, fun v h => ?_, fun h => ?_, fun v h => ?_, fun h => ?_,
    fun v h => ?_, fun h => ?_, fun v h => ?_, fun h => ?_, fun v h => ?_,
    fun h => ?_, fun v h => ?_, fun h => ?_, fun v h => ?_, ?_, ?_, ?_, ?_⟩ <;>
    simp_all [r, heq]

/-- Witness for C10: on a concrete row and request, the set field is
overwritten, the explicitly nulled field becomes null, an unset field is kept,
and `created_at` is untouched. -/
theorem rating_update_frame_witness :
    (apply_rating_update exRating exCreate 200).pace = exRating.pace ∧
    (apply_rating_update exRating exCreate 200).emotional_impact = some 4 ∧
    (apply_rating_update exRating exCreate 200).originality = none ∧
    (apply_rating_update exRating exCreate 200).created_at = exRating.created_at := by
  obtain ⟨hp0, hp1, he0, he1, hc0, hc1, hcd0, hcd1, hpq0, hpq1, hps0, hps1, ho0, ho1,
    hid, huid, hbid, hcr⟩ := rating_update_frame exRating exCreate 200
  exact ⟨hp0 rfl, he1 (some 4) rfl, ho1 none rfl, hcr⟩

/-- C9: `cosine_similarity` raises the dimension-mismatch `ValueError` exactly
when the two vectors differ in length; for equal lengths it always returns a
value: `0.0` whenever either magnitude is exactly zero, and the quotient by
the product of the (then nonzero) magnitudes otherwise. -/
theorem cosine_similarity_spec :
    (∀ a b : List ℚ, a.length ≠ b.length →
      cosine_similarity a b = .error "Vectors must have same dimension") ∧
    (∀ a b : List ℚ, a.length = b.length →
      Real.sqrt ((sumSq a : ℚ) : ℝ) = 0 ∨ Real.sqrt ((sumSq b : ℚ) : ℝ) = 0 →
      cosine_similarity a b = .ok 0) ∧
    (∀ a b : List ℚ, a.length = b.length →
      Real.sqrt ((sumSq a : ℚ) : ℝ) ≠ 0 → Real.sqrt ((sumSq b : ℚ) : ℝ) ≠ 0 →
      cosine_similarity a b =
        .ok (((dotProduct a b : ℚ) : ℝ) /
          (Real.sqrt ((sumSq a : ℚ) : ℝ) * Real.sqrt ((sumSq b : ℚ) : ℝ)))) ∧
    (∀ a b : List ℚ, a.length = b.length → ∃ r : ℝ, cosine_similarity a b = .ok r) := by
  refine ⟨fun a b h => ?_, fun a b h hm => ?_, fun a b h h1 h2 => ?_, fun a b h => ?_⟩
  · simp [cosine_similarity, h]
  · simp only [cosine_similarity, h, if_neg (by simp : ¬b.length ≠ b.length)]
    rw [if_pos hm]
  · simp only [cosine_similarity, h, if_neg (by simp : ¬b.length ≠ b.length)]
    rw [if_neg (by push_neg; exact ⟨h1, h2⟩)]
  · by_cases hm : Real.sqrt ((sumSq a : ℚ) : ℝ) = 0 ∨ Real.sqrt ((sumSq b : ℚ) : ℝ) = 0
    · exact ⟨0, by
        simp only [cosine_similarity, h, if_neg (by simp : ¬b.length ≠ b.length)]
        rw [if_pos hm]⟩
    · push_neg at hm
      exact ⟨_, by
        simp only [cosine_similarity, h, if_neg (by simp : ¬b.length ≠ b.length)]
        rw [if_neg (by push_neg; exact hm)]⟩

/-- Witness for C9, exercising all four branches on concrete vectors. -/
theorem cosine_similarity_spec_witness :
    cosine_similarity [1, 2] [1] = .error "Vectors must have same dimension" ∧
    cosine_similarity [0, 0] [3, 4] = .ok 0 ∧
    cosine_similarity [1] [2] =
      .ok (((dotProduct [1] [2] : ℚ) : ℝ) /
        (Real.sqrt ((sumSq [1] : ℚ) : ℝ) * Real.sqrt ((sumSq [2] : ℚ) : ℝ))) ∧
    (∃ r : ℝ, cosine_similarity [1, 1] [1, 1] = .ok r) := by
  refine ⟨cosine_similarity_spec.1 [1, 2] [1] (by decide),
    cosine_similarity_spec.2.1 [0, 0] [3, 4] (by decide) (Or.inl ?_),
    cosine_similarity_spec.2.2.1 [1] [2] (by decide) ?_ ?_,
    cosine_similarity_spec.2.2.2 [1, 1] [1, 1] (by decide)⟩
  · rw [show ((sumSq [0, 0] : ℚ) : ℝ) = 0 by norm_num [sumSq]]
    exact Real.sqrt_zero
  · rw [show ((sumSq [1] : ℚ) : ℝ) = 1 by norm_num [sumSq]]
    rw [Real.sqrt_one]
    norm_num
  · rw [show ((sumSq [2] : ℚ) : ℝ) = 4 by norm_num [sumSq]]
    positivity

theorem sortByKeyDesc_perm {α : Type} {β : Type} [LinearOrder β] (key : α → β)
    (l : List α) : (sortByKeyDesc key l).Perm l :=
  List.perm_insertionSort _ l

theorem sortByKeyDesc_sorted {α : Type} {β : Type} [LinearOrder β] (key : α → β)
    (l : List α) : (sortByKeyDesc key l).Pairwise (fun x y => key y ≤ key x) := by
  haveI : IsTotal α (fun x y => key y ≤ key x) := ⟨fun a b => le_total (key b) (key a)⟩
  haveI : IsTrans α (fun x y => key y ≤ key x) :=
    ⟨fun a b c hab hbc => le_trans hbc hab⟩
  exact List.sorted_insertionSort _ l

theorem mapM_eq_ok_of {α : Type} {β : Type} (f : α → Except String β) (g : α → β)
    (l : List α) (hg : ∀ a ∈ l, f a = .ok (g a)) : l.mapM f = .ok (l.map g) := by
  induction l with
  | nil => rfl
  | cons a tl ih =>
    rw [List.mapM_cons, hg a (by simp), ih (fun x hx => hg x (by simp [hx]))]
    rfl

theorem mapM_ok_forall2 {α : Type} {β : Type} (f : α → Except String β) (l : List α)
    (r : List β) (h : l.mapM f = .ok r) :
    List.Forall₂ (fun a b => f a = .ok b) l r := by
  induction l generalizing r with
  | nil =>
    simp only [List.mapM_nil] at h
    cases h
    exact .nil
  | cons a tl ih =>
    rw [List.mapM_cons] at h
    cases hfa : f a with
    | error e =>
      rw [hfa] at h
      exact absurd h (by simp [Bind.bind, Except.bind])
    | ok b =>
      rw [hfa] at h
      cases hrest : tl.mapM f with
      | error e =>
        rw [hrest] at h
        exact absurd h (by simp [Bind.bind, Except.bind, Pure.pure])
      | ok rs =>
        rw [hrest] at h
        have hr : r = b :: rs := by
          simpa [Bind.bind, Except.bind, Pure.pure, Except.pure] using h.symm
        subst hr
        exact .cons hfa (ih rs hrest)

theorem fingerprint_vector_length (f : Fingerprint) :
    f.fingerprint_vector.length = 7 := rfl

theorem cosine_similarity_eq_ok (a b : List ℚ) (h : a.length = b.length) :
    cosine_similarity a b = .ok (cosVal a b) := by
  unfold cosine_similarity cosVal
  rw [if_neg (by simp [h])]
  show (if Real.sqrt ((sumSq a : ℚ) : ℝ) = 0 ∨ Real.sqrt ((sumSq b : ℚ) : ℝ) = 0
      then (Except.ok 0 : Except String ℝ)
      else Except.ok (((dotProduct a b : ℚ) : ℝ) /
        (Real.sqrt ((sumSq a : ℚ) : ℝ) * Real.sqrt ((sumSq b : ℚ) : ℝ)))) =
    Except.ok (if Real.sqrt ((sumSq a : ℚ) : ℝ) = 0 ∨ Real.sqrt ((sumSq b : ℚ) : ℝ) = 0
      then 0
      else ((dotProduct a b : ℚ) : ℝ) /
        (Real.sqrt ((sumSq a : ℚ) : ℝ) * Real.sqrt ((sumSq b : ℚ) : ℝ)))
  split_ifs <;> rfl

theorem gsbf_eq (db : DB) (book_id limit : Nat) (excl : Option (List Nat)) :
    get_similar_books_by_fingerprint db book_id limit excl =
      .ok (gsbfResult db book_id limit excl) := by
  unfold get_similar_books_by_fingerprint gsbfResult
  cases h : db.book_fingerprints.find? (fun f => f.book_id == book_id) with
  | none => rfl
  | some fp =>
    by_cases h3 : fp.total_ratings < 3
    · simp [h3]
    · simp only [if_neg h3]
      rw [mapM_eq_ok_of _
        (fun bf => (bf.1, cosVal fp.fingerprint_vector bf.2.fingerprint_vector)) _ ?_]
      · rfl
      · intro bf _
        rw [cosine_similarity_eq_ok _ _
          ((fingerprint_vector_length fp).trans
            (fingerprint_vector_length bf.2).symm)]
        rfl

theorem ranked_pairwise {α : Type} (sim : α → ℝ) (scored : List (α × ℝ)) (limit : Nat)
    (hval : ∀ p ∈ scored, p.2 = sim p.1) :
    (((sortByKeyDesc Prod.snd scored).take limit).map Prod.fst).Pairwise
      (fun x y => sim y ≤ sim x) := by
  have hperm := sortByKeyDesc_perm (Prod.snd) scored
  have hmem : ∀ p ∈ sortByKeyDesc Prod.snd scored, p.2 = sim p.1 :=
    fun p hp => hval p (hperm.mem_iff.mp hp)
  have h2 : (sortByKeyDesc Prod.snd scored).Pairwise
      (fun p q => sim q.1 ≤ sim p.1) := by
    refine List.Pairwise.imp_of_mem ?_ (sortByKeyDesc_sorted Prod.snd scored)
    intro p q hp hq hle
    rw [← hmem p hp, ← hmem q hq]
    exact hle
  have h3 := List.Pairwise.sublist (List.take_sublist limit _) h2
  exact List.pairwise_map.mpr h3

theorem mem_ranked {α : Type} (scored : List (α × ℝ)) (limit : Nat) (x : α)
    (hx : x ∈ ((sortByKeyDesc Prod.snd scored).take limit).map Prod.fst) :
    ∃ s, (x, s) ∈ scored := by
  obtain ⟨p, hp, hpx⟩ := List.mem_map.mp hx
  have hp2 : p ∈ sortByKeyDesc Prod.snd scored :=
    (List.take_sublist limit _).subset hp
  have hp3 : p ∈ scored := (sortByKeyDesc_perm Prod.snd scored).mem_iff.mp hp2
  exact ⟨p.2, by rw [← hpx]; exact hp3⟩

theorem mem_joinBF (db : DB) (bf : Book × Fingerprint) (h : bf ∈ joinBF db) :
    bf.1 ∈ db.books ∧ bf.2 ∈ db.book_fingerprints ∧ bf.2.book_id = bf.1.id := by
  unfold joinBF at h
  obtain ⟨b, hb, hmem⟩ := List.mem_flatMap.mp h
  obtain ⟨f, hf, heq⟩ := List.mem_map.mp hmem
  obtain ⟨hfmem, hfkey⟩ := List.mem_filter.mp hf
  subst heq
  exact ⟨hb, hfmem, by simpa using hfkey⟩

theorem mem_fingerprintCandidates (db : DB) (book_id : Nat) (excl : Option (List Nat))
    (bf : Book × Fingerprint) (h : bf ∈ fingerprintCandidates db book_id excl) :
    bf ∈ joinBF db ∧ bf.2.book_id ≠ book_id ∧ 3 ≤ bf.2.total_ratings ∧
      bf.1.id ∉ excl.getD [] := by
  unfold fingerprintCandidates at h
  by_cases ht : truthyIds excl = true
  · rw [if_pos ht] at h
    obtain ⟨h1, hexcl⟩ := List.mem_filter.mp h
    obtain ⟨h2, hcond⟩ := List.mem_filter.mp h1
    simp only [Bool.and_eq_true, bne_iff_ne, decide_eq_true_eq] at hcond
    refine ⟨h2, hcond.1, hcond.2, ?_⟩
    simpa using hexcl
  · rw [if_neg ht] at h
    obtain ⟨h2, hcond⟩ := List.mem_filter.mp h
    simp only [Bool.and_eq_true, bne_iff_ne, decide_eq_true_eq] at hcond
    refine ⟨h2, hcond.1, hcond.2, ?_⟩
    cases excl with
    | none => simp
    | some l =>
      have : l.isEmpty = true := by
        by_contra hne
        exact ht (by simp [truthyIds, hne])
      rw [List.isEmpty_iff] at this
      simp [this]

theorem join_row_unique (db : DB)
    (hnodup : (db.book_fingerprints.map (·.book_id)).Nodup)
    (bf : Book × Fingerprint) (h : bf ∈ joinBF db) :
    db.book_fingerprints.find? (fun f => f.book_id == bf.1.id) = some bf.2 := by
  obtain ⟨_, hfmem, hkey⟩ := mem_joinBF db bf h
  cases hfind : db.book_fingerprints.find? (fun f => f.book_id == bf.1.id) with
  | none =>
    have hnone := List.find?_eq_none.mp hfind bf.2 hfmem
    exact absurd (by simp [hkey]) hnone
  | some f0 =>
    have h0mem := List.mem_of_find?_eq_some hfind
    have h0key : f0.book_id = bf.1.id := by simpa using List.find?_some hfind
    have heq : f0 = bf.2 :=
      List.inj_on_of_nodup_map hnodup h0mem hfmem (by rw [h0key, hkey])
    rw [heq]

theorem cos_ok_val (t v : List ℚ) (s : ℝ) (h : cosine_similarity t v = .ok s) :
    s = cosVal t v := by
  by_cases hl : t.length = v.length
  · rw [cosine_similarity_eq_ok t v hl] at h
    exact (Except.ok.inj h).symm
  · rw [show cosine_similarity t v = .error "Vectors must have same dimension" from by
      unfold cosine_similarity; rw [if_pos hl]] at h
    exact absurd h (by simp)

theorem forall2_mem_right {α : Type} {β : Type} {R : α → β → Prop} {l : List α}
    {r : List β} (h : List.Forall₂ R l r) : ∀ y ∈ r, ∃ x ∈ l, R x y := by
  induction h with
  | nil => simp
  | cons hR htail ih =>
    intro y hy
    rcases List.mem_cons.mp hy with hy1 | hy2
    · exact ⟨_, List.mem_cons_self _ _, hy1 ▸ hR⟩
    · obtain ⟨x, hx, hRx⟩ := ih y hy2
      exact ⟨x, List.mem_cons_of_mem _ hx, hRx⟩

theorem cosVal_const7 (x y : ℚ) (hx : 0 < x) (hy : 0 < y) :
    cosVal [x, x, x, x, x, x, x] [y, y, y, y, y, y, y] = 1 := by
  have hxR : (0 : ℝ) < (x : ℝ) := by exact_mod_cast hx
  have hyR : (0 : ℝ) < (y : ℝ) := by exact_mod_cast hy
  have hsx : ((sumSq [x, x, x, x, x, x, x] : ℚ) : ℝ) = 7 * (x : ℝ) ^ 2 := by
    simp only [sumSq, List.map_cons, List.map_nil, List.sum_cons, List.sum_nil]
    push_cast
    ring
  have hsy : ((sumSq [y, y, y, y, y, y, y] : ℚ) : ℝ) = 7 * (y : ℝ) ^ 2 := by
    simp only [sumSq, List.map_cons, List.map_nil, List.sum_cons, List.sum_nil]
    push_cast
    ring
  have hdot : ((dotProduct [x, x, x, x, x, x, x] [y, y, y, y, y, y, y] : ℚ) : ℝ) =
      7 * ((x : ℝ) * (y : ℝ)) := by
    simp only [dotProduct, List.zipWith_cons_cons, List.zipWith_nil_right,
      List.sum_cons, List.sum_nil]
    push_cast
    ring
  have hsqx : Real.sqrt (7 * (x : ℝ) ^ 2) = Real.sqrt 7 * (x : ℝ) := by
    rw [Real.sqrt_mul (by norm_num), Real.sqrt_sq hxR.le]
  have hsqy : Real.sqrt (7 * (y : ℝ) ^ 2) = Real.sqrt 7 * (y : ℝ) := by
    rw [Real.sqrt_mul (by norm_num), Real.sqrt_sq hyR.le]
  have h7 : (0 : ℝ) < Real.sqrt 7 := Real.sqrt_pos.mpr (by norm_num)
  unfold cosVal
  rw [hsx, hsy, hdot, hsqx, hsqy]
  rw [if_neg (by
    push_neg
    exact ⟨(mul_pos h7 hxR).ne', (mul_pos h7 hyR).ne'⟩)]
  rw [show Real.sqrt 7 * (x : ℝ) * (Real.sqrt 7 * (y : ℝ)) =
      Real.sqrt 7 * Real.sqrt 7 * ((x : ℝ) * (y : ℝ)) by ring]
  rw [Real.mul_self_sqrt (by norm_num)]
  rw [div_self (by positivity)]

theorem sort_pair_eval (p q : Book) :
    sortByKeyDesc Prod.snd [(p, (1 : ℝ)), (q, (1 : ℝ))] = [(p, 1), (q, 1)] := by
  simp [sortByKeyDesc, List.insertionSort, List.orderedInsert]

theorem gsbf_cex_eval :
    get_similar_books_by_fingerprint cexDb 1 10 none = .ok [cexBook5, cexBook2] := by
  have hv5 : (cexFp 5 2).fingerprint_vector = [2, 2, 2, 2, 2, 2, 2] := by
    norm_num [cexFp, Fingerprint.fingerprint_vector, orNeutral]
  have hv2 : (cexFp 2 4).fingerprint_vector = [4, 4, 4, 4, 4, 4, 4] := by
    norm_num [cexFp, Fingerprint.fingerprint_vector, orNeutral]
  have hv1 : (cexFp 1 3).fingerprint_vector = [3, 3, 3, 3, 3, 3, 3] := by
    norm_num [cexFp, Fingerprint.fingerprint_vector, orNeutral]
  have hshape : gsbfResult cexDb 1 10 none =
      ((sortByKeyDesc Prod.snd
        [(cexBook5, cosVal (cexFp 1 3).fingerprint_vector (cexFp 5 2).fingerprint_vector),
         (cexBook2, cosVal (cexFp 1 3).fingerprint_vector
           (cexFp 2 4).fingerprint_vector)]).take 10).map Prod.fst := rfl
  rw [gsbf_eq]
  rw [hshape, hv1, hv5, hv2, cosVal_const7 3 2 (by norm_num) (by norm_num),
    cosVal_const7 3 4 (by norm_num) (by norm_num), sort_pair_eval]
  rfl

/-- C3: fingerprint similarity returns the empty list whenever the anchor's
fingerprint row is missing or has fewer than 3 ratings, and every returned
book has a fingerprint row with at least 3 ratings and is neither the anchor
nor in the caller-supplied exclusion list. -/
theorem fingerprint_similarity_reliability (db : DB) (book_id limit : Nat)
    (excl : Option (List Nat)) (bs : List Book)
    (hok : get_similar_books_by_fingerprint db book_id limit excl = .ok bs) :
    ((db.book_fingerprints.find? (fun f => f.book_id == book_id)).all
        (fun fp => decide (fp.total_ratings < 3)) = true → bs = []) ∧
    ∀ b ∈ bs, (∃ f ∈ db.book_fingerprints, f.book_id = b.id ∧ 3 ≤ f.total_ratings) ∧
      b.id ≠ book_id ∧ b.id ∉ excl.getD [] := by
  rw [gsbf_eq] at hok
  have hbs : bs = gsbfResult db book_id limit excl := (Except.ok.inj hok).symm
  subst hbs
  cases hfind : db.book_fingerprints.find? (fun f => f.book_id == book_id) with
  | none =>
    have hres : gsbfResult db book_id limit excl = [] := by
      simp only [gsbfResult, hfind]
    rw [hres]
    exact ⟨fun _ => rfl, by simp⟩
  | some fp =>
    by_cases h3 : fp.total_ratings < 3
    · have hres : gsbfResult db book_id limit excl = [] := by
        simp only [gsbfResult, hfind, h3, if_true]
      rw [hres]
      exact ⟨fun _ => rfl, by simp⟩
    · constructor
      · intro hall
        simp only [Option.all_some, decide_eq_true_eq] at hall
        exact absurd hall h3
      · intro b hb
        simp only [gsbfResult, hfind, h3, if_false] at hb
        obtain ⟨s, hs⟩ := mem_ranked _ _ _ hb
        obtain ⟨bf, hbf, hbfeq⟩ := List.mem_map.mp hs
        have hb1 : bf.1 = b := congrArg Prod.fst hbfeq
        obtain ⟨hjoin, hne, hfloor, hexcl⟩ := mem_fingerprintCandidates _ _ _ _ hbf
        obtain ⟨hbmem, hfmem, hkey⟩ := mem_joinBF _ _ hjoin
        refine ⟨⟨bf.2, hfmem, by rw [hkey, hb1], hfloor⟩, ?_, ?_⟩
        · rw [← hb1, ← hkey]
          exact hne
        · rw [← hb1]
          exact hexcl

/-- Witness for C3: on the tie-break example database the anchor clears the
floor and both returned books satisfy the floor, anchor and exclusion
conditions. -/
theorem fingerprint_similarity_reliability_witness :
    ((cexDb.book_fingerprints.find? (fun f => f.book_id == 1)).all
        (fun fp => decide (fp.total_ratings < 3)) = true →
      ([cexBook5, cexBook2] : List Book) = []) ∧
    ∀ b ∈ ([cexBook5, cexBook2] : List Book),
      (∃ f ∈ cexDb.book_fingerprints, f.book_id = b.id ∧ 3 ≤ f.total_ratings) ∧
      b.id ≠ 1 ∧ b.id ∉ (none : Option (List Nat)).getD [] :=
  fingerprint_similarity_reliability cexDb 1 10 none [cexBook5, cexBook2] gsbf_cex_eval

/-- Counterexample for C4: on `cexDb` the two candidates have equal cosine
similarity 1 to the anchor, yet the result keeps them in candidate order (ids
`[5, 2]`): the stable sort does not re-break ties by ascending id. -/
theorem similar_books_tie_counterexample :
    get_similar_books_by_fingerprint cexDb 1 10 none = .ok [cexBook5, cexBook2] ∧
    cosVal (anchorFingerprintVector cexDb 1) (fingerprintVectorOf cexDb cexBook5) =
      cosVal (anchorFingerprintVector cexDb 1) (fingerprintVectorOf cexDb cexBook2) ∧
    ¬ rankedWithTiesByAscendingId
      (fun b => cosVal (anchorFingerprintVector cexDb 1) (fingerprintVectorOf cexDb b))
      [cexBook5, cexBook2] := by
  have hanchor : anchorFingerprintVector cexDb 1 = [3, 3, 3, 3, 3, 3, 3] := by
    norm_num [anchorFingerprintVector, cexDb, cexFp, Fingerprint.fingerprint_vector,
      orNeutral]
  have hv5 : fingerprintVectorOf cexDb cexBook5 = [2, 2, 2, 2, 2, 2, 2] := by
    norm_num [fingerprintVectorOf, cexDb, cexBook5, cexFp,
      Fingerprint.fingerprint_vector, orNeutral]
  have hv2 : fingerprintVectorOf cexDb cexBook2 = [4, 4, 4, 4, 4, 4, 4] := by
    norm_num [fingerprintVectorOf, cexDb, cexBook2, cexFp,
      Fingerprint.fingerprint_vector, orNeutral]
  have h52 : cosVal [3, 3, 3, 3, 3, 3, 3] [2, 2, 2, 2, 2, 2, 2] = 1 :=
    cosVal_const7 3 2 (by norm_num) (by norm_num)
  have h42 : cosVal [3, 3, 3, 3, 3, 3, 3] [4, 4, 4, 4, 4, 4, 4] = 1 :=
    cosVal_const7 3 4 (by norm_num) (by norm_num)
  refine ⟨gsbf_cex_eval, by rw [hanchor, hv5, hv2, h52, h42], ?_⟩
  intro hrank
  unfold rankedWithTiesByAscendingId at hrank
  have h1 := (List.pairwise_cons.mp hrank).1 cexBook2 (by simp)
  simp only [hanchor, hv5, hv2, h52, h42] at h1
  rcases h1 with hlt | ⟨_, hid⟩
  · exact absurd hlt (lt_irrefl 1)
  · exact absurd hid (by norm_num [cexBook5, cexBook2])

/-- C4 (amended): both similarity finders return candidates ordered by
descending cosine similarity to the target vector, truncated to `limit`; the
sort is stable, so ties stay in candidate order instead of being re-broken by
ascending id. -/
theorem similar_books_ranked :
    (∀ (db : DB) (book_id limit : Nat) (excl : Option (List Nat)) (bs : List Book),
      get_similar_books_by_embedding db book_id limit excl = .ok bs →
      bs.length ≤ limit ∧
      bs.Pairwise (fun x y =>
        cosVal ((targetEmbedding db book_id).getD []) (y.description_embedding.getD []) ≤
        cosVal ((targetEmbedding db book_id).getD [])
          (x.description_embedding.getD []))) ∧
    (∀ (db : DB) (book_id limit : Nat) (excl : Option (List Nat)) (bs : List Book),
      (db.book_fingerprints.map (·.book_id)).Nodup →
      get_similar_books_by_fingerprint db book_id limit excl = .ok bs →
      bs.length ≤ limit ∧
      bs.Pairwise (fun x y =>
        cosVal (anchorFingerprintVector db book_id) (fingerprintVectorOf db y) ≤
        cosVal (anchorFingerprintVector db book_id) (fingerprintVectorOf db x))) := by
  constructor
  · intro db book_id limit excl bs hok
    unfold get_similar_books_by_embedding at hok
    simp only [] at hok
    cases htr : truthyVec (targetEmbedding db book_id) with
    | false =>
      rw [htr] at hok
      simp only [Bool.not_false, if_true] at hok
      have hbs : bs = [] := (Except.ok.inj hok).symm
      subst hbs
      exact ⟨Nat.zero_le _, List.Pairwise.nil⟩
    | true =>
      rw [htr] at hok
      simp only [Bool.not_true, Bool.false_eq_true, if_false] at hok
      cases hm : (embeddingCandidates db book_id excl).mapM
          (fun b => (cosine_similarity ((targetEmbedding db book_id).getD [])
            (b.description_embedding.getD [])).map (fun s => (b, s))) with
      | error e =>
        rw [hm] at hok
        exact absurd hok (by simp [Bind.bind, Except.bind])
      | ok scored =>
        rw [hm] at hok
        have hbs : bs = ((sortByKeyDesc Prod.snd scored).take limit).map Prod.fst := by
          simpa [Bind.bind, Except.bind, Pure.pure, Except.pure] using hok.symm
        subst hbs
        constructor
        · rw [List.length_map]
          exact List.length_take_le _ _
        · apply ranked_pairwise
          intro p hp
          obtain ⟨b, hbmem, hrel⟩ := forall2_mem_right (mapM_ok_forall2 _ _ _ hm) p hp
          cases hc : cosine_similarity ((targetEmbedding db book_id).getD [])
              (b.description_embedding.getD []) with
          | error e =>
            rw [hc] at hrel
            exact absurd hrel (by simp [Except.map])
          | ok v =>
            rw [hc] at hrel
            simp only [Except.map] at hrel
            have hp2 : p = (b, v) := (Except.ok.inj hrel).symm
            subst hp2
            exact cos_ok_val _ _ _ hc
  · intro db book_id limit excl bs hnodup hok
    rw [gsbf_eq] at hok
    have hbs : bs = gsbfResult db book_id limit excl := (Except.ok.inj hok).symm
    subst hbs
    cases hfind : db.book_fingerprints.find? (fun f => f.book_id == book_id) with
    | none =>
      have hres : gsbfResult db book_id limit excl = [] := by
        simp only [gsbfResult, hfind]
      rw [hres]
      exact ⟨Nat.zero_le _, List.Pairwise.nil⟩
    | some fp =>
      by_cases h3 : fp.total_ratings < 3
      · have hres : gsbfResult db book_id limit excl = [] := by
          simp only [gsbfResult, hfind, h3, if_true]
        rw [hres]
        exact ⟨Nat.zero_le _, List.Pairwise.nil⟩
      · have hres : gsbfResult db book_id limit excl =
            ((sortByKeyDesc Prod.snd ((fingerprintCandidates db book_id excl).map
              (fun bf => (bf.1,
                cosVal fp.fingerprint_vector bf.2.fingerprint_vector)))).take
              limit).map Prod.fst := by
          simp only [gsbfResult, hfind, h3, if_false]
        rw [hres]
        constructor
        · rw [List.length_map]
          exact List.length_take_le _ _
        · apply ranked_pairwise
          intro p hp
          obtain ⟨bf, hbf, hbfeq⟩ := List.mem_map.mp hp
          have hanchor : anchorFingerprintVector db book_id = fp.fingerprint_vector := by
            unfold anchorFingerprintVector
            rw [hfind]
          have hjoin := (mem_fingerprintCandidates _ _ _ _ hbf).1
          have hfvec : fingerprintVectorOf db bf.1 = bf.2.fingerprint_vector := by
            unfold fingerprintVectorOf
            rw [join_row_unique db hnodup bf hjoin]
          rw [← hbfeq]
          simp only
          rw [hanchor, hfvec]

/-- Witness for the amended C4: the embedding half applied to a database with
a truthy anchor embedding and no candidates, the fingerprint half to the
tie-break database and its two returned candidates. -/
theorem similar_books_ranked_witness :
    (([] : List Book).length ≤ 10 ∧
      ([] : List Book).Pairwise (fun x y =>
        cosVal ((targetEmbedding embDb 1).getD []) (y.description_embedding.getD []) ≤
        cosVal ((targetEmbedding embDb 1).getD [])
          (x.description_embedding.getD []))) ∧
    ([cexBook5, cexBook2] : List Book).length ≤ 10 ∧
    ([cexBook5, cexBook2] : List Book).Pairwise (fun x y =>
      cosVal (anchorFingerprintVector cexDb 1) (fingerprintVectorOf cexDb y) ≤
      cosVal (anchorFingerprintVector cexDb 1) (fingerprintVectorOf cexDb x)) :=
  ⟨similar_books_ranked.1 embDb 1 10 none [] rfl,
   similar_books_ranked.2 cexDb 1 10 none [cexBook5, cexBook2] (by decide) gsbf_cex_eval⟩

theorem mem_foldl_filter {α : Type} {γ : Type} (p : γ → α → Bool) (conds : List γ)
    (rows : List α) (x : α) :
    x ∈ conds.foldl (fun acc c => acc.filter (p c)) rows ↔
      x ∈ rows ∧ ∀ c ∈ conds, p c x = true := by
  induction conds generalizing rows with
  | nil => simp
  | cons c cs ih =>
    rw [List.foldl_cons, ih]
    simp only [List.mem_filter, List.forall_mem_cons]
    tauto

/-- Counterexample for C5: a book whose fingerprint passes the comfort
predicates with 4 ratings — at or above the spec's shared floor 3, below the
code's floor 5 — is not returned by the mood query, while the spec-modelled
floor-3 query returns it. -/
theorem mood_floor_counterexample :
    get_books_by_mood moodDb4 "comfort" 10 = [] ∧
    byMoodSpecFloor3 moodDb4 "comfort" 10 = [moodBook] ∧
    3 ≤ moodFp4.total_ratings ∧
    (MoodCond.minCond DimField.emotional_impact 4).holds moodFp4 = true ∧
    (MoodCond.maxCond DimField.complexity 3).holds moodFp4 = true := by
  decide

/-- C5 (amended): the mood query applies its dimension-range predicates only
to books whose fingerprint has `total_ratings >= 5` — a literal distinct from
the floor 3 used by fingerprint similarity — and every returned book has a
fingerprint row passing that floor and every predicate of the mood. -/
theorem mood_filter_floor (db : DB) (mood : String) (limit : Nat)
    (conds : List MoodCond) (hm : mood_filters (pyLower mood) = some conds) :
    ∀ b ∈ get_books_by_mood db mood limit,
      ∃ f ∈ db.book_fingerprints, f.book_id = b.id ∧ 5 ≤ f.total_ratings ∧
        ∀ c ∈ conds, c.holds f = true := by
  intro b hb
  unfold get_books_by_mood at hb
  rw [hm] at hb
  have hb2 := (List.take_sublist _ _).subset hb
  obtain ⟨bf, hbf, hfst⟩ := List.mem_map.mp hb2
  rw [mem_foldl_filter] at hbf
  obtain ⟨hrow, hconds⟩ := hbf
  obtain ⟨hjoin, h5⟩ := List.mem_filter.mp hrow
  obtain ⟨_, hfmem, hkey⟩ := mem_joinBF db bf hjoin
  exact ⟨bf.2, hfmem, by rw [hkey, hfst], by simpa using h5, hconds⟩

/-- Witness for the amended C5: the comfort query on a 5-rating fingerprint
returns the book, whose row satisfies floor and predicates. -/
theorem mood_filter_floor_witness :
    ∃ f ∈ moodDb5.book_fingerprints, f.book_id = moodBook.id ∧ 5 ≤ f.total_ratings ∧
      ∀ c ∈ [MoodCond.minCond DimField.emotional_impact 4,
        MoodCond.maxCond DimField.complexity 3], c.holds f = true :=
  mood_filter_floor moodDb5 "comfort" 10
    [MoodCond.minCond DimField.emotional_impact 4,
     MoodCond.maxCond DimField.complexity 3] (by decide) moodBook (by decide)

/-- Counterexample for C6: an unknown mood label makes `get_books_by_mood`
return an ordinary (empty) result list, while the spec-modelled variant fails
with `UnknownMood`. -/
theorem mood_unknown_counterexample :
    byMoodChecked moodDb5 "joyful" 10 = .error "UnknownMood" ∧
    get_books_by_mood moodDb5 "joyful" 10 = [] := by
  constructor <;> rfl

/-- C6 (amended): for every mood label outside the four known ones the mood
query logs a warning and returns the empty list — the request is not
rejected with an error. -/
theorem mood_unknown_returns_empty (db : DB) (mood : String) (limit : Nat)
    (hm : mood_filters (pyLower mood) = none) :
    get_books_by_mood db mood limit = [] := by
  unfold get_books_by_mood
  rw [hm]

/-- Witness for the amended C6 at the concrete unknown label. -/
theorem mood_unknown_returns_empty_witness :
    get_books_by_mood moodDb5 "joyful" 10 = [] :=
  mood_unknown_returns_empty moodDb5 "joyful" 10 (by decide)

theorem highlyRated_exFav_eval : highlyRatedBookIds exFavRatings = [10, 20] := by
  simp +decide [highlyRatedBookIds, exFavRatings, starAtLeast4, Rating.star_equivalent,
    Rating.dimensions, List.filter_cons, List.filter_nil]

theorem specFav_exFav_eval : specFavoritesMostRecent exFavRatings = [20, 10] := by
  simp +decide [specFavoritesMostRecent, exFavRatings, sortByKeyDesc,
    List.insertionSort, List.orderedInsert, Rating.star_equivalent, Rating.dimensions,
    List.filter_cons, List.filter_nil]

/-- Counterexample for C8: with two qualifying ratings listed oldest first,
the anchors the code selects are `[10, 20]` (query order) while the spec's
most-recent-first selection yields `[20, 10]`. -/
theorem favorites_recency_counterexample :
    (highlyRatedBookIds exFavRatings).take 3 ≠ specFavoritesMostRecent exFavRatings := by
  rw [highlyRated_exFav_eval, specFav_exFav_eval]
  decide

/-- C8 (amended): the similarity anchors are the first 3 of the user's
ratings whose `star_equivalent` passes the 4.0 test, in the order the rating
query returns them (no recency ordering is applied); every anchor belongs to
a rating with non-null `star_equivalent >= 4.0`. -/
theorem favorites_selection (user_ratings : List Rating) :
    (highlyRatedBookIds user_ratings).take 3 =
      ((user_ratings.filter starAtLeast4).map (·.book_id)).take 3 ∧
    ((highlyRatedBookIds user_ratings).take 3).length ≤ 3 ∧
    ∀ bid ∈ (highlyRatedBookIds user_ratings).take 3,
      ∃ r ∈ user_ratings, r.book_id = bid ∧
        ∃ q, r.star_equivalent = some q ∧ 4 ≤ q := by
  refine ⟨rfl, List.length_take_le _ _, ?_⟩
  intro bid hbid
  have h2 := (List.take_sublist _ _).subset hbid
  obtain ⟨r, hr, hrid⟩ := List.mem_map.mp h2
  obtain ⟨hrmem, hstar⟩ := List.mem_filter.mp hr
  refine ⟨r, hrmem, hrid, ?_⟩
  unfold starAtLeast4 at hstar
  cases hq : r.star_equivalent with
  | none =>
    rw [hq] at hstar
    exact absurd hstar (by simp)
  | some q =>
    rw [hq] at hstar
    simp only [Bool.and_eq_true, decide_eq_true_eq] at hstar
    exact ⟨q, rfl, hstar.2⟩

theorem contains_iff (l : List Nat) (x : Nat) : l.contains x = true ↔ x ∈ l :=
  List.elem_iff

theorem filter_key_length_le_one (l : List Fingerprint)
    (hnodup : (l.map (·.book_id)).Nodup) (k : Nat) :
    (l.filter (fun f => f.book_id == k)).length ≤ 1 := by
  induction l with
  | nil => simp
  | cons f tl ih =>
    simp only [List.map_cons, List.nodup_cons] at hnodup
    obtain ⟨hout, htl⟩ := hnodup
    rw [List.filter_cons]
    by_cases hk : (f.book_id == k) = true
    · rw [if_pos hk]
      have hnil : tl.filter (fun g => g.book_id == k) = [] := by
        rw [List.filter_eq_nil_iff]
        intro g hg hgk
        have h1 : g.book_id = k := by simpa using hgk
        have h2 : f.book_id = k := by simpa using hk
        exact hout (by
          rw [h2, ← h1]
          exact List.mem_map_of_mem (·.book_id) hg)
      simp [hnil]
    · rw [if_neg hk]
      exact le_trans (ih htl) (by norm_num)

theorem flatMap_singleton_sublist {α : Type} {γ : Type} (l : List α)
    (block : α → List γ) (f : γ → Nat) (g : α → Nat)
    (hlen : ∀ a, (block a).length ≤ 1) (hf : ∀ a, ∀ x ∈ block a, f x = g a) :
    ((l.flatMap block).map f).Sublist (l.map g) := by
  induction l with
  | nil => simp
  | cons a tl ih =>
    rw [List.flatMap_cons, List.map_append, List.map_cons]
    cases hb : block a with
    | nil =>
      simp only [List.map_nil, List.nil_append]
      exact ih.cons _
    | cons x xs =>
      have hxs : xs = [] := by
        have hl := hlen a
        rw [hb] at hl
        simpa using hl
      subst hxs
      simp only [List.map_cons, List.map_nil, List.singleton_append]
      rw [hf a x (by simp [hb])]
      exact ih.cons₂ (g a)

theorem joinBF_ids_nodup (db : DB) (hbooks : (db.books.map (·.id)).Nodup)
    (hfps : (db.book_fingerprints.map (·.book_id)).Nodup) :
    ((joinBF db).map (fun bf => bf.1.id)).Nodup := by
  have hsub : ((joinBF db).map (fun bf => bf.1.id)).Sublist (db.books.map (·.id)) := by
    unfold joinBF
    apply flatMap_singleton_sublist
    · intro b
      simpa using filter_key_length_le_one db.book_fingerprints hfps b.id
    · intro b x hx
      obtain ⟨frow, hfrow, hxeq⟩ := List.mem_map.mp hx
      rw [← hxeq]
  exact List.Pairwise.sublist hsub hbooks

theorem strat1_inner_inv (ex0 : List Nat) (bs : List Book)
    (acc : List RecEntry × List Nat) (hinv : Strat1Inv ex0 acc) :
    Strat1Inv ex0 (bs.foldl (fun acc2 b =>
      if acc2.2.contains b.id then acc2
      else (acc2.1 ++ [⟨b, .similar_feel, 9 / 10⟩], b.id :: acc2.2)) acc) ∧
    ∀ x ∈ acc.2, x ∈ (bs.foldl (fun acc2 b =>
      if acc2.2.contains b.id then acc2
      else (acc2.1 ++ [⟨b, .similar_feel, 9 / 10⟩], b.id :: acc2.2)) acc).2 := by
  induction bs generalizing acc with
  | nil => exact ⟨hinv, fun x hx => hx⟩
  | cons b tl ih =>
    rw [List.foldl_cons]
    by_cases hc : acc.2.contains b.id = true
    · rw [if_pos hc]
      exact ih acc hinv
    · rw [if_neg hc]
      have hbnot : b.id ∉ acc.2 := fun hmem => hc ((contains_iff _ _).mpr hmem)
      obtain ⟨hnd, hin, hnex, hex⟩ := hinv
      have hinv2 : Strat1Inv ex0 (acc.1 ++ [⟨b, .similar_feel, 9 / 10⟩], b.id :: acc.2) := by
        refine ⟨?_, ?_, ?_, ?_⟩
        · rw [List.map_append, List.nodup_append]
          refine ⟨hnd, by simp, ?_⟩
          intro x hx
          obtain ⟨e, he, heid⟩ := List.mem_map.mp hx
          simp only [List.map_cons, List.map_nil, List.mem_singleton]
          intro hxb
          rw [hxb] at heid
          exact hbnot (heid ▸ hin e he)
        · intro e he
          rcases List.mem_append.mp he with h1 | h1
          · exact List.mem_cons_of_mem _ (hin e h1)
          · simp only [List.mem_singleton] at h1
            rw [h1]
            exact List.mem_cons_self _ _
        · intro e he
          rcases List.mem_append.mp he with h1 | h1
          · exact hnex e h1
          · simp only [List.mem_singleton] at h1
            rw [h1]
            intro hmem
            exact hbnot (hex _ hmem)
        · intro x hx
          exact List.mem_cons_of_mem _ (hex x hx)
      obtain ⟨hfold, hsub⟩ := ih _ hinv2
      exact ⟨hfold, fun x hx => hsub x (List.mem_cons_of_mem _ hx)⟩

theorem strat1_fold_ok (db : DB) (anchors : List Nat) (acc : List RecEntry × List Nat)
    (ex0 : List Nat) (hinv : Strat1Inv ex0 acc) :
    ∃ out, anchors.foldlM (strat1Step db) acc = .ok out ∧ Strat1Inv ex0 out ∧
      ∀ x ∈ acc.2, x ∈ out.2 := by
  induction anchors generalizing acc with
  | nil => exact ⟨acc, rfl, hinv, fun x hx => hx⟩
  | cons a tl ih =>
    have hstep : strat1Step db acc a =
        .ok ((gsbfResult db a 5 (some acc.2)).foldl (fun acc2 b =>
          if acc2.2.contains b.id then acc2
          else (acc2.1 ++ [⟨b, .similar_feel, 9 / 10⟩], b.id :: acc2.2)) acc) := by
      unfold strat1Step
      rw [gsbf_eq]
      rfl
    rw [List.foldlM_cons, hstep]
    obtain ⟨hinner, hsubinner⟩ :=
      strat1_inner_inv ex0 (gsbfResult db a 5 (some acc.2)) acc hinv
    obtain ⟨out, hout, hinv2, hsub⟩ := ih _ hinner
    exact ⟨out, hout, hinv2, fun x hx => hsub x (hsubinner x hx)⟩

theorem finishRecommendations_props (db : DB) (limit : Nat)
    (s1 : List RecEntry × List Nat) (ex0 : List Nat)
    (hbooks : (db.books.map (·.id)).Nodup)
    (hfps : (db.book_fingerprints.map (·.book_id)).Nodup)
    (hinv : Strat1Inv ex0 s1) :
    ((finishRecommendations db limit s1).map (fun e => e.book.id)).Nodup ∧
    (finishRecommendations db limit s1).length ≤ limit ∧
    ∀ e ∈ finishRecommendations db limit s1, e.book.id ∉ ex0 := by
  obtain ⟨hnd, hin, hnex, hex⟩ := hinv
  have hfull : ∀ recsFull : List RecEntry,
      (recsFull.map (fun e => e.book.id)).Nodup →
      (∀ e ∈ recsFull, e.book.id ∉ ex0) →
      (((sortByKeyDesc RecEntry.score recsFull).take limit).map
        (fun e => e.book.id)).Nodup ∧
      ((sortByKeyDesc RecEntry.score recsFull).take limit).length ≤ limit ∧
      ∀ e ∈ (sortByKeyDesc RecEntry.score recsFull).take limit, e.book.id ∉ ex0 := by
    intro recsFull h1 h2
    refine ⟨?_, List.length_take_le _ _, ?_⟩
    · refine List.Pairwise.sublist (List.Sublist.map _ (List.take_sublist _ _)) ?_
      exact (((sortByKeyDesc_perm RecEntry.score recsFull).map
        (fun e => e.book.id)).symm).nodup h1
    · intro e he
      exact h2 e ((sortByKeyDesc_perm RecEntry.score recsFull).mem_iff.mp
        ((List.take_sublist _ _).subset he))
  unfold finishRecommendations
  simp only []
  by_cases hlen : s1.1.length < limit
  · rw [if_pos hlen]
    set popRows := (joinBF db).filter (fun bf => decide (10 ≤ bf.2.total_ratings) &&
      starColGe4 bf.2 && !s1.2.contains bf.1.id) with hpop
    set popular := (sortByKeyDesc (fun bf : Book × Fingerprint => bf.2.total_ratings)
      popRows).take (limit - s1.1.length) with hpopular
    have hpopmem : ∀ bf ∈ popular, bf.1.id ∉ s1.2 := by
      intro bf hbf
      have h1 : bf ∈ popRows :=
        (sortByKeyDesc_perm (fun bf : Book × Fingerprint => bf.2.total_ratings)
          popRows).mem_iff.mp ((List.take_sublist _ _).subset hbf)
      have h2 := (List.mem_filter.mp h1).2
      simp only [Bool.and_eq_true, Bool.not_eq_true'] at h2
      intro hmem
      rw [(contains_iff _ _).mpr hmem] at h2
      exact Bool.false_ne_true h2.2.symm
    have hpopnodup : ((popular.map (fun bf =>
        (⟨bf.1, .highly_rated (bf.2.star_equivalent.getD 0), 7 / 10⟩ : RecEntry))).map
        (fun e => e.book.id)).Nodup := by
      rw [List.map_map]
      have hrows : (popRows.map (fun bf => bf.1.id)).Nodup := by
        refine List.Pairwise.sublist (List.Sublist.map _ (List.filter_sublist _)) ?_
        exact joinBF_ids_nodup db hbooks hfps
      refine List.Pairwise.sublist (List.Sublist.map _ (List.take_sublist _ _)) ?_
      exact (((sortByKeyDesc_perm (fun bf : Book × Fingerprint => bf.2.total_ratings)
        popRows).map (fun bf => bf.1.id)).symm).nodup hrows
    apply hfull
    · rw [List.map_append, List.nodup_append]
      refine ⟨hnd, hpopnodup, ?_⟩
      intro x hx hx2
      obtain ⟨e, he, heid⟩ := List.mem_map.mp hx
      obtain ⟨e2, he2, heid2⟩ := List.mem_map.mp hx2
      obtain ⟨bf, hbf, hbfe⟩ := List.mem_map.mp he2
      have : x ∈ s1.2 := heid ▸ hin e he
      apply hpopmem bf hbf
      rw [← hbfe] at heid2
      simp only at heid2
      rw [heid2]
      exact this
    · intro e he
      rcases List.mem_append.mp he with h1 | h1
      · exact hnex e h1
      · obtain ⟨bf, hbf, hbfe⟩ := List.mem_map.mp h1
        rw [← hbfe]
        simp only
        intro hmem
        exact hpopmem bf hbf (hex _ hmem)
  · rw [if_neg hlen]
    exact hfull s1.1 hnd hnex

/-- C2: the recommender never fails, and it returns a list with pairwise
distinct book ids, of length at most `limit`, containing no book of the
exclusion set implied by the `exclude_read` flag (all library books when the
flag is set, otherwise the finished and did-not-finish ones). -/
theorem personalized_recommendations_safe (db : DB) (user_id limit : Nat)
    (exclude_read : Bool) (hbooks : (db.books.map (·.id)).Nodup)
    (hfps : (db.book_fingerprints.map (·.book_id)).Nodup) :
    ∃ recs, get_personalized_recommendations db user_id limit exclude_read = .ok recs ∧
      (recs.map (fun e => e.book.id)).Nodup ∧
      recs.length ≤ limit ∧
      ∀ e ∈ recs, e.book.id ∉ excludedByFlag db user_id exclude_read := by
  have hinv0 : Strat1Inv (excludedByFlag db user_id exclude_read)
      ([], excludedByFlag db user_id exclude_read) :=
    ⟨by simp, by simp, by simp, fun x hx => hx⟩
  obtain ⟨s1, hs1, hinv1, _⟩ := strat1_fold_ok db
    ((highlyRatedBookIds (db.multi_dimensional_ratings.filter
      (fun r => r.user_id == user_id))).take 3)
    ([], excludedByFlag db user_id exclude_read)
    (excludedByFlag db user_id exclude_read) hinv0
  obtain ⟨hnd, hlen, hnex⟩ :=
    finishRecommendations_props db limit s1 (excludedByFlag db user_id exclude_read)
      hbooks hfps hinv1
  refine ⟨finishRecommendations db limit s1, ?_, hnd, hlen, hnex⟩
  unfold get_personalized_recommendations
  simp only []
  rw [hs1]
  rfl

/-- Witness for C2 on a concrete database. -/
theorem personalized_recommendations_safe_witness :
    ∃ recs, get_personalized_recommendations moodDb5 7 10 true = .ok recs ∧
      (recs.map (fun e => e.book.id)).Nodup ∧
      recs.length ≤ 10 ∧
      ∀ e ∈ recs, e.book.id ∉ excludedByFlag moodDb5 7 true :=
  personalized_recommendations_safe moodDb5 7 10 true (by decide) (by decide)

/-- Witness for the amended C8 on the concrete rating list. -/
theorem favorites_selection_witness :
    ((highlyRatedBookIds exFavRatings).take 3).length ≤ 3 ∧
    ∃ r ∈ exFavRatings, r.book_id = 10 ∧ ∃ q, r.star_equivalent = some q ∧ 4 ≤ q :=
  ⟨(favorites_selection exFavRatings).2.1,
   (favorites_selection exFavRatings).2.2 10
     (by rw [highlyRated_exFav_eval]; decide)⟩

end TheShelf
